import Mathlib

/-!
Verification development for the MediaWall client-side media grid
(masonry layout, per-item load/unload/play/pause lifecycle, auto-scroll).

The definitions below are shallow embeddings of the JavaScript/React source:
* `VideoMasonry.jsx` — `getItemHeight`, `effectiveWidth`, early-return render
  structure;
* `VideoItem.jsx` — the per-video lifecycle (load / unload / autoplay / click
  effects and the two timers), modelled as an explicit state machine;
* `ImageItem` — the per-image load-once lifecycle;
* `useAutoScroll` — the auto-scroll driver.

React's effect semantics are modelled explicitly: each event first performs the
handler's state updates and then runs the component's effects (in declaration
order, re-run to their fixpoint, which for this component is reached in one
pass when the source-change effect is applied first; effect dependency arrays
are modelled by snapshots where the re-run condition matters).  JavaScript
closures that capture state values are modelled by storing the captured values
with the scheduled timer.  Numbers are `ℚ`, time is `Nat` milliseconds.
-/

namespace MediaWall

/-- Media kind of one grid entry: a video or an image. -/
inductive MediaKind
  | video
  | image
  deriving DecidableEq, Repr

/-- The fields of a media descriptor that the height / aspect resolution reads
(§6 of the spec).  `metaDims` is `some (w, h)` when `metadata.dimensions.width`
and `.height` are both present and truthy and both `parseInt` to an integer
(`parseInt` returning `NaN` is `none`); `topDims` holds the top-level
`width`/`height` number fields when both are present and truthy (truthy for a
number means nonzero); `aspectField` is the provided `aspect_ratio` field. -/
structure MediaDesc where
  kind : MediaKind
  metaDims : Option (Int × Int)
  topDims : Option (ℚ × ℚ)
  aspectField : Option ℚ
  deriving DecidableEq, Repr

/-- Priority 3 and final fallback of the video height chain
(`VideoMasonry.jsx:327-336`, identical in `VideoItem.calculateDimensions`):
use the provided `aspect_ratio` when `> 0`, else fall back to 16:9. -/
def videoHeightFromAspect (d : MediaDesc) (width : ℚ) : ℚ :=
  match d.aspectField with
  | some a => if 0 < a then width / a else width / (16 / 9)
  | none => width / (16 / 9)

/-- Priority 2 of the video height chain (`VideoMasonry.jsx:320-325`):
top-level `width`/`height` when both `> 0`, else fall through. -/
def videoHeightFromTop (d : MediaDesc) (width : ℚ) : ℚ :=
  match d.topDims with
  | some (w, h) =>
      if 0 < w ∧ 0 < h then width / (w / h) else videoHeightFromAspect d width
  | none => videoHeightFromAspect d width

/-- Priority 1 of the video height chain (`VideoMasonry.jsx:308-318`):
`metadata.dimensions` parsed as integers, both `> 0`, else fall through. -/
def videoItemHeight (d : MediaDesc) (width : ℚ) : ℚ :=
  match d.metaDims with
  | some (w, h) =>
      if 0 < w ∧ 0 < h then width / ((w : ℚ) / (h : ℚ))
      else videoHeightFromTop d width
  | none => videoHeightFromTop d width

/-- Priority 3 and final fallback of the image height chain
(`VideoMasonry.jsx:300-303`, identical in `ImageItem.calcHeight`): the provided
`aspect_ratio` when `> 0`, else fall back to 4:3. -/
def imageHeightFromAspect (d : MediaDesc) (width : ℚ) : ℚ :=
  match d.aspectField with
  | some a => if 0 < a then width / a else width / (4 / 3)
  | none => width / (4 / 3)

/-- Priority 2 of the image height chain (`VideoMasonry.jsx:297-299`). -/
def imageHeightFromTop (d : MediaDesc) (width : ℚ) : ℚ :=
  match d.topDims with
  | some (w, h) =>
      if 0 < w ∧ 0 < h then width / (w / h) else imageHeightFromAspect d width
  | none => imageHeightFromAspect d width

/-- Priority 1 of the image height chain (`VideoMasonry.jsx:292-296`). -/
def imageItemHeight (d : MediaDesc) (width : ℚ) : ℚ :=
  match d.metaDims with
  | some (w, h) =>
      if 0 < w ∧ 0 < h then width / ((w : ℚ) / (h : ℚ))
      else imageHeightFromTop d width
  | none => imageHeightFromTop d width

/-- `VideoMasonry.getItemHeight` (`VideoMasonry.jsx:288-337`) for a
non-placeholder item: the image branch for images, the video branch (with its
final 16:9 fallback) for videos.  Total — no input shape throws. -/
def getItemHeight (d : MediaDesc) (width : ℚ) : ℚ :=
  match d.kind with
  | .image => imageItemHeight d width
  | .video => videoItemHeight d width

/-- `ImageItem.calcHeight` (ImageItem source lines 37-50): the same chain as
the image branch of `getItemHeight`, written there verbatim per component. -/
def calcHeight (d : MediaDesc) (width : ℚ) : ℚ :=
  imageItemHeight d width

/-- `VideoItem.calculateDimensions` (`VideoItem.jsx:20-57`): returns the
`(width, height)` pair; the height chain is the video chain of
`getItemHeight`, written there verbatim. -/
def calculateDimensions (d : MediaDesc) (providedWidth : ℚ) : ℚ × ℚ :=
  (providedWidth, videoItemHeight d providedWidth)

/-- Spec-side definition (follows the words of spec §3): the metadata pixel
dimensions when both parse `> 0`. -/
def validDims : Option (Int × Int) → Option ℚ
  | some (w, h) => if 0 < w ∧ 0 < h then some ((w : ℚ) / (h : ℚ)) else none
  | none => none

/-- Spec-side definition: the top-level `width`/`height` pair when both `> 0`. -/
def validTop : Option (ℚ × ℚ) → Option ℚ
  | some (w, h) => if 0 < w ∧ 0 < h then some (w / h) else none
  | none => none

/-- Spec-side definition: the provided normalized aspect field when `> 0`. -/
def validAspect : Option ℚ → Option ℚ
  | some a => if 0 < a then some a else none
  | none => none

/-- Spec-side fallback default: 16:9 for videos, 4:3 for images (spec §3). -/
def fallbackAspect : MediaKind → ℚ
  | .video => 16 / 9
  | .image => 4 / 3

/-- Spec-side aspect resolution, following the priority stated in spec §3:
pixel dimensions in metadata, then top-level width/height, then the provided
normalized value, then the kind's fallback default. -/
def specAspect (d : MediaDesc) : ℚ :=
  (validDims d.metaDims).getD
    ((validTop d.topDims).getD
      ((validAspect d.aspectField).getD (fallbackAspect d.kind)))

/-! ### Container width handling (C6) -/
/-- `effectiveWidth` (`VideoMasonry.jsx:45-55`): the measured container width
when positive, otherwise a fallback computed from `window.innerWidth`
(1200 when `window` is undefined), scaled to 70% in highlight mode. -/
def effectiveWidth (containerWidth : ℚ) (windowInnerWidth : Option ℚ)
    (highlightMode : Bool) : ℚ :=
  if 0 < containerWidth then containerWidth
  else
    let baseWidth := windowInnerWidth.getD 1200
    if highlightMode then baseWidth * (7 / 10) else baseWidth

/-- What `VideoMasonry` returns (its early-return structure). -/
inductive RenderOutcome
  | emptyMessage
  | measuring
  | grid
  deriving DecidableEq, Repr

/-- The early returns of `VideoMasonry` in `videos` mode
(`VideoMasonry.jsx:460-538`): an empty list renders the empty message; an
effective width of exactly 0 renders the "Measuring container dimensions…"
not-ready indication (no masonry, hence no slots); otherwise the grid. -/
def renderOutcome (videoCount : Nat) (containerWidth : ℚ)
    (windowInnerWidth : Option ℚ) (highlightMode : Bool) : RenderOutcome :=
  if videoCount = 0 then RenderOutcome.emptyMessage
  else if effectiveWidth containerWidth windowInnerWidth highlightMode = 0 then
    RenderOutcome.measuring
  else RenderOutcome.grid

/-! ### VideoItem lifecycle state machine (`VideoItem.jsx`)

The per-video component holds React state `isLoaded / isLoading / isFailed /
isPlaying / loadingError`, two intersection-observer booleans, a video element
(whose attached source we model as `srcAttached`), a `srcRef`, and two timers.
Events (observer callbacks, media events, clicks, the passage of time) first
apply the handler's state updates and then run the component's effects to
their fixpoint; the fixpoint is reached in one pass when the source-change
effect (line 221) is applied before the load effect (line 213), then the
unload effect (line 241) and the autoplay effect (line 267).  The unload
effect's dependency array `[inLoadView, isLoaded, isLoading]` is modelled by
the `unloadDeps` snapshot: the effect re-runs (cleanup cancelling the pending
timer, then re-evaluating its condition) only when those change.  The load
timeout callback captures the render-scope `isLoading` / `isLoaded` values; the
captured booleans are stored with the timer. -/
/-- Runtime state of one `VideoItem`.  Time is `now` in milliseconds;
`releases` counts how many times the unload path detached the source. -/
structure VItem where
  autoplay : Bool
  videoUrl : String
  srcRef : String
  srcAttached : Bool
  isLoaded : Bool
  isLoading : Bool
  isFailed : Bool
  isPlaying : Bool
  loadingError : Option String
  inLoadView : Bool
  inPlayView : Bool
  interFrac : ℚ
  now : Nat
  unloadDeadline : Option Nat
  loadDeadline : Option (Nat × Bool × Bool)
  unloadDeps : Bool × Bool × Bool
  releases : Nat
  deriving DecidableEq, Repr

/-- Freshly mounted `VideoItem` (all state hooks at their defaults,
`srcRef.current = ''`, no timers, both observers not yet intersecting). -/
def vinit (ap : Bool) (url : String) : VItem :=
  { autoplay := ap, videoUrl := url, srcRef := "", srcAttached := false,
    isLoaded := false, isLoading := false, isFailed := false,
    isPlaying := false, loadingError := none, inLoadView := false,
    inPlayView := false, interFrac := 0, now := 0, unloadDeadline := none,
    loadDeadline := none, unloadDeps := (false, false, false), releases := 0 }

/-- `loadVideo` (`VideoItem.jsx:90-210`): guarded by `isLoading || isLoaded`;
sets the loading flags, attaches the source when the element has none or the
source changed, and schedules the 10 s load timeout whose callback captured
the render-scope `isLoading` / `isLoaded` (the values at the call). -/
def loadVideo (s : VItem) : VItem :=
  if s.isLoading = true ∨ s.isLoaded = true then s
  else if s.srcAttached = false ∨ s.srcRef ≠ s.videoUrl then
    { s with
      isLoading := true, isFailed := false, loadingError := none,
      srcAttached := true, srcRef := s.videoUrl,
      loadDeadline := some (s.now + 10000, s.isLoading, s.isLoaded) }
  else
    { s with
      isLoading := true, isFailed := false, loadingError := none,
      loadDeadline := some (s.now + 10000, s.isLoading, s.isLoaded) }

/-- Source-change effect (`VideoItem.jsx:221-238`): when `srcRef.current` is
non-empty and differs from the current `videoUrl`, reset all lifecycle flags,
pause the element and detach its source.  (`srcRef` itself is only rewritten
by `loadVideo`.) -/
def sourceEffect (s : VItem) : VItem :=
  if s.srcRef ≠ "" ∧ s.srcRef ≠ s.videoUrl then
    { s with
      isLoaded := false, isFailed := false, isLoading := false,
      loadingError := none, isPlaying := false, srcAttached := false }
  else s

/-- Load effect (`VideoItem.jsx:213-218`): call `loadVideo` when the item is
in the load window and neither loaded nor failed. -/
def loadEffect (s : VItem) : VItem :=
  if s.inLoadView = true ∧ s.isLoaded = false ∧ s.isFailed = false then
    loadVideo s
  else s

/-- Unload effect (`VideoItem.jsx:240-264`) with dependency array
`[inLoadView, isLoaded, isLoading]`: on a dependency change the cleanup
cancels the pending unload timer and the body schedules a fresh 1 s timer
when the item is out of the load window while loaded or loading. -/
def unloadEffect (s : VItem) : VItem :=
  if (s.inLoadView, s.isLoaded, s.isLoading) = s.unloadDeps then s
  else if s.inLoadView = false ∧ (s.isLoaded = true ∨ s.isLoading = true) then
    { s with
      unloadDeps := (s.inLoadView, s.isLoaded, s.isLoading),
      unloadDeadline := some (s.now + 1000) }
  else
    { s with
      unloadDeps := (s.inLoadView, s.isLoaded, s.isLoading),
      unloadDeadline := none }

/-- The 0.1 intersection-fraction threshold of the autoplay effect
(`VideoItem.jsx:273`), given directly in lowest terms so that comparisons
against it evaluate by kernel reduction. -/
def playThreshold : ℚ := ⟨1, 10, by decide, Nat.coprime_one_left 10⟩

/-- Autoplay effect (`VideoItem.jsx:267-284`): no-op unless loaded and not
failed; plays when autoplay is on, the play window is entered and the
intersection fraction exceeds 0.1; pauses when the play window is left. -/
def autoplayEffect (s : VItem) : VItem :=
  if s.isLoaded = false ∨ s.isFailed = true then s
  else if s.autoplay = true ∧ s.inPlayView = true ∧ playThreshold < s.interFrac
      ∧ s.isPlaying = false then
    { s with isPlaying := true }
  else if s.inPlayView = false ∧ s.isPlaying = true then
    { s with isPlaying := false }
  else s

/-- One full React effect pass, in the order that reaches the re-render
fixpoint in a single pass (source-change reset first, then load, unload,
autoplay). -/
def reconcile (s : VItem) : VItem :=
  autoplayEffect (unloadEffect (loadEffect (sourceEffect s)))

/-- The unload timer firing (`VideoItem.jsx:244-260`): after the 1 s delay,
re-check `inLoadView`; when still out of view, pause, detach the source and
clear every lifecycle flag (then the effects run on the cleared state). -/
def fireUnload (s : VItem) : VItem :=
  match s.unloadDeadline with
  | none => s
  | some d =>
    if d ≤ s.now then
      if s.inLoadView = true then { s with unloadDeadline := none }
      else
        reconcile
          { s with
            unloadDeadline := none, isPlaying := false,
            srcAttached := false, isLoaded := false, isFailed := false,
            loadingError := none, isLoading := false,
            releases := s.releases + 1 }
    else s

/-- The 10 s load timeout firing (`VideoItem.jsx:199-206`): the callback runs
`if (isLoading && !isLoaded)` on the values it captured when the timeout was
scheduled — which were the pre-`setIsLoading` render values. -/
def fireLoadTimer (s : VItem) : VItem :=
  match s.loadDeadline with
  | none => s
  | some (d, capLoading, capLoaded) =>
    if d ≤ s.now then
      if capLoading = true ∧ capLoaded = false then
        reconcile
          { s with
            loadDeadline := none, isLoading := false,
            isFailed := true, loadingError := some "Load timeout" }
      else { s with loadDeadline := none }
    else s

/-- Events driving one `VideoItem`: the two intersection observers, the media
element's `loadedmetadata` / `error` events (which the handlers ignore once
the source is detached), a user click, a source change from a shuffle, and
the passage of time (which fires any due timer). -/
inductive VEvent
  | setLoadView (b : Bool)
  | setPlayView (b : Bool) (frac : ℚ)
  | metadataLoaded
  | mediaError (msg : String)
  | click
  | changeSource (url : String)
  | elapse (dt : Nat)

/-- One event step: the handler's state updates followed by the effect pass
(timer fires run their own effect pass). -/
def vstep (s : VItem) (e : VEvent) : VItem :=
  match e with
  | .setLoadView b => reconcile { s with inLoadView := b }
  | .setPlayView b frac =>
      reconcile { s with inPlayView := b, interFrac := frac }
  | .metadataLoaded =>
      if s.srcAttached = true then
        reconcile
          { s with
            loadDeadline := none, isLoaded := true,
            isLoading := false, isFailed := false, loadingError := none }
      else s
  | .mediaError msg =>
      if s.srcAttached = true then
        reconcile
          { s with
            loadDeadline := none, loadingError := some msg,
            isFailed := true, isLoading := false }
      else s
  | .click =>
      if s.isLoaded = false then s
      else if s.isPlaying = false then reconcile { s with isPlaying := true }
      else reconcile { s with isPlaying := false }
  | .changeSource url => reconcile { s with videoUrl := url }
  | .elapse dt => fireLoadTimer (fireUnload { s with now := s.now + dt })

/-- Run a list of events. -/
def execV (s : VItem) : List VEvent → VItem
  | [] => s
  | e :: es => execV (vstep s e) es

/-- States reachable from a freshly mounted item. -/
inductive VReach : VItem → Prop
  | init (ap : Bool) (url : String) : VReach (vinit ap url)
  | step (s : VItem) (e : VEvent) : VReach s → VReach (vstep s e)

/-- Lifecycle phases of spec §3/§4.4.  The code does not distinguish Ready
from Paused (both are loaded-and-not-playing); we map that boolean state to
`Ready`.  `Failed` takes precedence, exactly as the render does. -/
inductive Phase
  | Unloaded
  | Loading
  | Ready
  | Failed
  | Playing
  | Paused
  deriving DecidableEq, Repr

/-- The phase the component's boolean state denotes (render precedence of
`VideoItem.jsx:356-402`: failed, else loading, else not-loaded placeholder,
else the video, playing or not). -/
def phase (s : VItem) : Phase :=
  if s.isFailed = true then Phase.Failed
  else if s.isLoading = true then Phase.Loading
  else if s.isLoaded = false then Phase.Unloaded
  else if s.isPlaying = true then Phase.Playing
  else Phase.Ready

/-- The run of C2's counterexample: load begins, the media reports an error
(the item becomes Failed with its source still attached), the item leaves the
load window and stays out for 2 s — twice the debounce. -/
def c2FailedRun : VItem :=
  execV (vinit false "a.mp4")
    [VEvent.setLoadView true, VEvent.mediaError "decode error",
     VEvent.setLoadView false, VEvent.elapse 2000]

/-- A loaded item in the load window, obtained by loading successfully. -/
def c2ReadyRun : VItem :=
  execV (vinit false "a.mp4") [VEvent.setLoadView true, VEvent.metadataLoaded]

/-- The run leading to C5's witness state: load, succeed, leave the load
window — a Ready item with a pending 1 s unload timer. -/
def c5StartRun : VItem :=
  execV (vinit false "a.mp4")
    [VEvent.setLoadView true, VEvent.metadataLoaded, VEvent.setLoadView false]

/-- The run leading to C4's witness state: a load that fails with a media
error while in the load window. -/
def c4FailedRun : VItem :=
  execV (vinit false "a.mp4") [VEvent.setLoadView true, VEvent.mediaError "x"]

/-- The run of C3: the item enters the load window at t = 0, `loadVideo`
schedules the 10 s timeout, and neither success nor error arrives; at
t = 10000 the timeout fires. -/
def c3TimeoutRun : VItem :=
  execV (vinit false "video_0.mp4") [VEvent.setLoadView true, VEvent.elapse 10000]

/-- The inductive invariant behind C9: a playing item is loaded, and unless
it has failed (a media error can arrive mid-playback and does not pause the
element) it is inside the play window. -/
def VInv (s : VItem) : Prop :=
  s.isPlaying = true →
    (s.isLoaded = true ∧ (s.isFailed = false → s.inPlayView = true))

/-- The run leading to C9's witness state: autoplay on, load succeeds, the
item enters the play window fully visible — it is Playing. -/
def c9PlayingRun : VItem :=
  vstep (vstep (vstep (vinit true "a.mp4") (VEvent.setLoadView true))
    VEvent.metadataLoaded) (VEvent.setPlayView true 1)

/-! ### Auto-scroll driver (`useAutoScroll`)

The hook keeps `isAutoScrolling` in a ref, a `setInterval` handle (modelled as
the next tick's due time in `intervalNext`, the interval period being 50 ms),
and a mouse-idle `setTimeout` (`idleDeadline`).  `scrollTop` is the scrollable
element's offset, advanced by `scrollSpeed` per tick; the element is modelled
as ideal (the offset is the code's, unclamped, and the bottom test is the
code's `scrollTop + clientHeight >= scrollHeight`). -/
/-- Runtime state of `useAutoScroll` plus the scrollable element geometry. -/
structure AScroll where
  enabled : Bool
  scrollSpeed : ℚ
  idleDelay : Nat
  now : Nat
  scrollTop : ℚ
  clientHeight : ℚ
  scrollHeight : ℚ
  isAutoScrolling : Bool
  intervalNext : Option Nat
  idleDeadline : Option Nat
  deriving DecidableEq, Repr

/-- `stopAutoScroll` (part_001:275-284): guarded by the `isAutoScrolling`
ref; clears the scroll interval and the mouse-idle timeout. -/
def stopAutoScroll (s : AScroll) : AScroll :=
  if s.isAutoScrolling = false then s
  else
    { s with
      isAutoScrolling := false, intervalNext := none, idleDeadline := none }

/-- `startAutoScroll` (part_001:286-332): guarded by the ref and the enabled
setting; arms the 50 ms scroll interval. -/
def startAutoScroll (s : AScroll) : AScroll :=
  if s.isAutoScrolling = true ∨ s.enabled = false then s
  else { s with isAutoScrolling := true, intervalNext := some (s.now + 50) }

/-- `startMouseIdleTimer` (part_001:334-344): re-arms the idle timeout when
the feature is enabled. -/
def startMouseIdleTimer (s : AScroll) : AScroll :=
  if s.enabled = false then s
  else { s with idleDeadline := some (s.now + s.idleDelay) }

/-- The interval callback (part_001:300-331): when the ref still says
scrolling, advance `scrollTop` by `scrollSpeed` and stop on reaching the
bottom; a stale interval (ref already false) clears itself. -/
def tickBody (s : AScroll) : AScroll :=
  if s.isAutoScrolling = true then
    if s.scrollHeight ≤ s.scrollTop + s.scrollSpeed + s.clientHeight then
      stopAutoScroll { s with scrollTop := s.scrollTop + s.scrollSpeed }
    else { s with scrollTop := s.scrollTop + s.scrollSpeed }
  else { s with intervalNext := none }

/-- Events driving the auto-scroll hook: an interval tick, a qualifying user
interaction (`handleUserInteraction`), the idle timeout firing, the
`autoScrollEnabled` setting changing, and the passage of time. -/
inductive AEvent
  | tick
  | interact
  | idleFire
  | setEnabled (b : Bool)
  | elapse (dt : Nat)

/-- One step of the auto-scroll hook.  `setEnabled false` models the effects
of part_001:369-377 and the cleanup plus else-branch of part_001:452-474,
which clear the interval, the idle timeout and the ref; `setEnabled true`
models the cleanup and `startMouseIdleTimer` branch of the same effect. -/
def astep (s : AScroll) (e : AEvent) : AScroll :=
  match e with
  | .elapse dt => { s with now := s.now + dt }
  | .tick =>
      match s.intervalNext with
      | none => s
      | some t =>
          if t ≤ s.now then
            tickBody { s with intervalNext := some (s.now + 50) }
          else s
  | .idleFire =>
      match s.idleDeadline with
      | none => s
      | some d =>
          if d ≤ s.now then startAutoScroll { s with idleDeadline := none }
          else s
  | .interact =>
      if s.isAutoScrolling = true then startMouseIdleTimer (stopAutoScroll s)
      else s
  | .setEnabled b =>
      if s.enabled = b then s
      else if b = true then
        startMouseIdleTimer
          { s with
            enabled := true, intervalNext := none, idleDeadline := none }
      else
        { s with
          enabled := false, isAutoScrolling := false, intervalNext := none,
          idleDeadline := none }

/-- Run a list of auto-scroll events. -/
def execA (s : AScroll) : List AEvent → AScroll
  | [] => s
  | e :: es => execA (astep s e) es

/-- Time consumed by an event. -/
def timeOfA : AEvent → Nat
  | .elapse dt => dt
  | _ => 0

/-- Events that leave the `autoScrollEnabled` setting alone. -/
def keepsConfig : AEvent → Bool
  | .setEnabled _ => false
  | _ => true

/-- A mid-scroll state for the C8 witness: auto-scroll running with an armed
interval and no idle timeout. -/
def c8Running : AScroll :=
  { enabled := true, scrollSpeed := 2, idleDelay := 5000, now := 6000,
    scrollTop := 20, clientHeight := 600, scrollHeight := 2000,
    isAutoScrolling := true, intervalNext := some 6050, idleDeadline := none }

/-- A running auto-scroll state at a due tick, for the C7 witness. -/
def c7Run : AScroll :=
  { enabled := true, scrollSpeed := 2, idleDelay := 5000, now := 6050,
    scrollTop := 20, clientHeight := 600, scrollHeight := 2000,
    isAutoScrolling := true, intervalNext := some 6050, idleDeadline := none }

/-- A running state one tick from the bottom, for the C7 witness. -/
def c7Bottom : AScroll :=
  { enabled := true, scrollSpeed := 2, idleDelay := 5000, now := 6050,
    scrollTop := 1398, clientHeight := 600, scrollHeight := 2000,
    isAutoScrolling := true, intervalNext := some 6050, idleDeadline := none }

/-- A stopped state with a pending idle deadline, for the C7 witness. -/
def c7Stopped : AScroll :=
  { enabled := true, scrollSpeed := 2, idleDelay := 5000, now := 6050,
    scrollTop := 20, clientHeight := 600, scrollHeight := 2000,
    isAutoScrolling := false, intervalNext := none,
    idleDeadline := some 11050 }

/-- 2 s of quiet events after an interaction stop (less than the remaining
idle delay). -/
def c7Quiet : List AEvent :=
  [AEvent.elapse 2000, AEvent.tick, AEvent.idleFire, AEvent.interact]

/-- Runtime state of one `ImageItem` (part_004 ImageItem source).
`hasRequestedLoad` is the ref of line 30, `shouldLoad` the state of line 28,
`srcRef` the ref of line 31; `inViewDep` is the dependency snapshot of the
`[inView]` effect (line 62), which re-runs only when `inView` changes. -/
structure IItem where
  imageUrl : String
  srcRef : String
  shouldLoad : Bool
  hasRequestedLoad : Bool
  isLoaded : Bool
  isFailed : Bool
  inView : Bool
  inViewDep : Bool
  deriving DecidableEq, Repr

/-- The `[inView]` effect (part_004:62-67): on its first run with
`inView = true`, set `hasRequestedLoad` and `shouldLoad`; it never unsets
them. -/
def iViewEffect (s : IItem) : IItem :=
  if s.inView = s.inViewDep then s
  else if s.inView = true ∧ s.hasRequestedLoad = false then
    { s with
      inViewDep := s.inView, hasRequestedLoad := true, shouldLoad := true }
  else { s with inViewDep := s.inView }

/-- The `[imageUrl]` effect (part_004:70-78): a source change resets the
loaded / failed / shouldLoad state and the request ref, then records the
current url in `srcRef` (which the effect always does at the end). -/
def iSourceEffect (s : IItem) : IItem :=
  if s.srcRef ≠ "" ∧ s.srcRef ≠ s.imageUrl then
    { s with
      isLoaded := false, isFailed := false, shouldLoad := false,
      hasRequestedLoad := false, srcRef := s.imageUrl }
  else { s with srcRef := s.imageUrl }

/-- One effect pass, in declaration order. -/
def iEffects (s : IItem) : IItem := iSourceEffect (iViewEffect s)

/-- Freshly mounted `ImageItem` after its first effect pass (`inView` starts
false, `srcRef` holds the url). -/
def iinit (url : String) : IItem :=
  { imageUrl := url, srcRef := url, shouldLoad := false,
    hasRequestedLoad := false, isLoaded := false, isFailed := false,
    inView := false, inViewDep := false }

/-- Events driving one `ImageItem`: the intersection observer, the img
element's load / error events, and a source change from a shuffle. -/
inductive IEvent
  | setInView (b : Bool)
  | imgLoad
  | imgError
  | changeSource (url : String)

/-- One event step: the img element exists only while not failed and has a
src only while `shouldLoad` (part_004:112-124), so its load / error events
can only arrive then; visibility and url changes run the effect pass. -/
def istep (s : IItem) (e : IEvent) : IItem :=
  match e with
  | .setInView b => iEffects { s with inView := b }
  | .imgLoad =>
      if s.shouldLoad = true ∧ s.isFailed = false then
        { s with isLoaded := true }
      else s
  | .imgError =>
      if s.shouldLoad = true ∧ s.isFailed = false then
        { s with isFailed := true }
      else s
  | .changeSource url => iEffects { s with imageUrl := url }

/-- The src attribute of the rendered img element (part_004:113-115): absent
when failed (the img is unmounted) or when `shouldLoad` is still false. -/
def imgSrc (s : IItem) : Option String :=
  if s.isFailed = true then none
  else if s.shouldLoad = true then some s.imageUrl
  else none

/-- A fresh image item that has entered the load window once. -/
def c10Run : IItem := istep (iinit "i.jpg") (IEvent.setInView true)

/-! ## Theorems -/

/-- C1: for every media item the computed slot height equals
`width / aspectRatio` where the aspect is resolved with the priority
metadata pixel dimensions > top-level width/height > provided aspect field >
fallback default (16:9 video, 4:3 image); the per-component copies of the
chain (`ImageItem.calcHeight`, `VideoItem.calculateDimensions`) agree with it
on their own kind; all functions are total, so no input shape throws. -/
theorem getItemHeight_eq_width_div_specAspect :
    ∀ (d : MediaDesc) (width : ℚ),
      getItemHeight d width = width / specAspect d ∧
      (d.kind = MediaKind.image → calcHeight d width = width / specAspect d) ∧
      (d.kind = MediaKind.video →
        (calculateDimensions d width).2 = width / specAspect d) := by
  intro d width
  obtain ⟨k, md, td, af⟩ := d
  have hmain : getItemHeight ⟨k, md, td, af⟩ width
      = width / specAspect ⟨k, md, td, af⟩ := by
    cases k <;>
      rcases md with _ | ⟨w, h⟩ <;> rcases td with _ | ⟨tw, th⟩ <;>
        rcases af with _ | a <;>
      simp only [getItemHeight, specAspect, imageItemHeight, videoItemHeight,
        imageHeightFromTop, videoHeightFromTop, imageHeightFromAspect,
        videoHeightFromAspect, validDims, validTop, validAspect,
        fallbackAspect] <;>
      (try split_ifs) <;> simp_all
  refine ⟨hmain, ?_, ?_⟩
  · intro hk
    cases hk
    simpa [getItemHeight, calcHeight] using hmain
  · intro hk
    cases hk
    simpa [getItemHeight, calculateDimensions] using hmain

/-- Witness for C1 at a concrete video descriptor (metadata 1920×1080,
width 160): discharges the kind hypotheses of the theorem. -/
theorem getItemHeight_eq_width_div_specAspect_witness :
    (MediaDesc.mk MediaKind.video (some (1920, 1080)) none none).kind
        = MediaKind.video ∧
    (calculateDimensions
        (MediaDesc.mk MediaKind.video (some (1920, 1080)) none none) 160).2
      = 160 / specAspect
          (MediaDesc.mk MediaKind.video (some (1920, 1080)) none none) :=
  ⟨rfl,
    (getItemHeight_eq_width_div_specAspect
      (MediaDesc.mk MediaKind.video (some (1920, 1080)) none none) 160).2.2
      rfl⟩

/-- C6 counterexample: a container reporting width 0 does not make the grid
render nothing — with a 1000px window the fallback width is 1000 and the grid
(and its slots) renders; the claimed not-ready indication does not appear. -/
theorem c6_containerWidthZero_still_renders :
    renderOutcome 3 0 (some 1000) false = RenderOutcome.grid ∧
    effectiveWidth 0 (some 1000) false = 1000 ∧
    renderOutcome 3 0 (some 1000) false ≠ RenderOutcome.measuring := by
  refine ⟨?_, by decide, ?_⟩ <;> decide

/-- C6 amended: the not-ready deferral is keyed on the *effective* width, not
the container width: when the effective width (container width when positive,
else the window fallback, 70% in highlight mode) is 0 and the item list is
non-empty, the grid renders the measuring indication and produces no slots. -/
theorem c6_measuring_when_no_effective_width (n : Nat) (cw : ℚ)
    (ww : Option ℚ) (hl : Bool) (hn : n ≠ 0)
    (hw : effectiveWidth cw ww hl = 0) :
    renderOutcome n cw ww hl = RenderOutcome.measuring := by
  unfold renderOutcome
  simp [hn, hw]

/-- Witness for C6 amended: container width 0 and window width 0. -/
theorem c6_measuring_when_no_effective_width_witness :
    (1 ≠ 0) ∧ effectiveWidth 0 (some 0) false = 0 ∧
    renderOutcome 1 0 (some 0) false = RenderOutcome.measuring :=
  ⟨one_ne_zero, by decide,
    c6_measuring_when_no_effective_width 1 0 (some 0) false one_ne_zero
      (by decide)⟩

/-- The threshold is the rational 0.1. -/
theorem playThreshold_eq : playThreshold = 1 / 10 := by
  have h1 : ((1 : ℚ) / 10).num = 1 := by norm_num
  have h2 : ((1 : ℚ) / 10).den = 10 := by norm_num
  refine Rat.ext ?_ ?_ <;> rw [playThreshold]
  · rw [h1]
  · rw [h2]

/-! #### Basic lemmas about the individual effects -/
/-- The source-change effect is the identity while `srcRef` matches the
current url. -/
theorem sourceEffect_id (s : VItem) (h : s.srcRef = s.videoUrl) :
    sourceEffect s = s := by
  unfold sourceEffect
  split_ifs with hc
  · exact absurd h hc.2
  · rfl

/-- The load effect does nothing while the item is out of the load window. -/
theorem loadEffect_out (s : VItem) (h : s.inLoadView = false) :
    loadEffect s = s := by
  unfold loadEffect
  split_ifs with hc
  · rw [hc.1] at h; cases h
  · rfl

/-- The load effect does nothing on a failed item. -/
theorem loadEffect_failed (s : VItem) (h : s.isFailed = true) :
    loadEffect s = s := by
  unfold loadEffect
  split_ifs with hc
  · rw [hc.2.2] at h; cases h
  · rfl

/-- The load effect does nothing on a loaded item. -/
theorem loadEffect_loaded (s : VItem) (h : s.isLoaded = true) :
    loadEffect s = s := by
  unfold loadEffect
  split_ifs with hc
  · rw [hc.2.1] at h; cases h
  · rfl

/-- The load effect does nothing on a loading item (the `loadVideo` guard). -/
theorem loadEffect_loading (s : VItem) (h : s.isLoading = true) :
    loadEffect s = s := by
  unfold loadEffect loadVideo
  split_ifs with hc hc2 <;> simp_all

/-- `loadVideo` changes neither `isPlaying` nor `isLoaded` nor the timers and
counters other than the load timeout. -/
theorem loadEffect_frame (s : VItem) :
    (loadEffect s).isPlaying = s.isPlaying ∧
    (loadEffect s).isLoaded = s.isLoaded ∧
    (loadEffect s).inPlayView = s.inPlayView ∧
    (loadEffect s).autoplay = s.autoplay ∧
    (loadEffect s).releases = s.releases ∧
    (loadEffect s).now = s.now ∧
    (loadEffect s).inLoadView = s.inLoadView ∧
    (loadEffect s).videoUrl = s.videoUrl ∧
    (loadEffect s).unloadDeadline = s.unloadDeadline ∧
    (loadEffect s).unloadDeps = s.unloadDeps := by
  unfold loadEffect loadVideo
  split_ifs <;> simp_all

/-- The unload effect only touches the two timer bookkeeping fields. -/
theorem unloadEffect_frame (s : VItem) :
    (unloadEffect s).isPlaying = s.isPlaying ∧
    (unloadEffect s).isLoaded = s.isLoaded ∧
    (unloadEffect s).isLoading = s.isLoading ∧
    (unloadEffect s).isFailed = s.isFailed ∧
    (unloadEffect s).inPlayView = s.inPlayView ∧
    (unloadEffect s).autoplay = s.autoplay ∧
    (unloadEffect s).interFrac = s.interFrac ∧
    (unloadEffect s).srcAttached = s.srcAttached ∧
    (unloadEffect s).srcRef = s.srcRef ∧
    (unloadEffect s).videoUrl = s.videoUrl ∧
    (unloadEffect s).loadingError = s.loadingError ∧
    (unloadEffect s).loadDeadline = s.loadDeadline ∧
    (unloadEffect s).releases = s.releases ∧
    (unloadEffect s).now = s.now ∧
    (unloadEffect s).inLoadView = s.inLoadView := by
  unfold unloadEffect
  split_ifs <;> simp_all

/-- The autoplay effect only touches `isPlaying`. -/
theorem autoplayEffect_frame (s : VItem) :
    (autoplayEffect s).isLoaded = s.isLoaded ∧
    (autoplayEffect s).isLoading = s.isLoading ∧
    (autoplayEffect s).isFailed = s.isFailed ∧
    (autoplayEffect s).srcAttached = s.srcAttached ∧
    (autoplayEffect s).srcRef = s.srcRef ∧
    (autoplayEffect s).videoUrl = s.videoUrl ∧
    (autoplayEffect s).loadingError = s.loadingError ∧
    (autoplayEffect s).unloadDeadline = s.unloadDeadline ∧
    (autoplayEffect s).loadDeadline = s.loadDeadline ∧
    (autoplayEffect s).unloadDeps = s.unloadDeps ∧
    (autoplayEffect s).releases = s.releases ∧
    (autoplayEffect s).now = s.now ∧
    (autoplayEffect s).inLoadView = s.inLoadView := by
  unfold autoplayEffect
  split_ifs <;> simp_all

/-- The unload effect when its dependencies changed and the unload condition
holds: the pending timer is replaced by a fresh 1 s timer. -/
theorem unloadEffect_schedule (s : VItem)
    (hne : (s.inLoadView, s.isLoaded, s.isLoading) ≠ s.unloadDeps)
    (hout : s.inLoadView = false)
    (hlg : s.isLoaded = true ∨ s.isLoading = true) :
    unloadEffect s =
      { s with
        unloadDeps := (s.inLoadView, s.isLoaded, s.isLoading),
        unloadDeadline := some (s.now + 1000) } := by
  unfold unloadEffect
  split_ifs <;> simp_all

/-- The unload effect when its dependencies changed and the unload condition
does not hold: the pending timer is simply cancelled. -/
theorem unloadEffect_clear (s : VItem)
    (hne : (s.inLoadView, s.isLoaded, s.isLoading) ≠ s.unloadDeps)
    (hc : ¬(s.inLoadView = false ∧ (s.isLoaded = true ∨ s.isLoading = true))) :
    unloadEffect s =
      { s with
        unloadDeps := (s.inLoadView, s.isLoaded, s.isLoading),
        unloadDeadline := none } := by
  unfold unloadEffect
  split_ifs <;> simp_all

/-- The autoplay effect does nothing on a non-loaded item. -/
theorem autoplayEffect_unloaded (s : VItem) (h : s.isLoaded = false) :
    autoplayEffect s = s := by
  unfold autoplayEffect
  split_ifs with hc <;> simp_all

/-- The autoplay effect is a record update of `isPlaying` only. -/
theorem autoplayEffect_eq (s : VItem) :
    autoplayEffect s = { s with isPlaying := (autoplayEffect s).isPlaying } := by
  unfold autoplayEffect
  split_ifs <;> rfl

/-- C2 amended: for every video item that is loaded or loading (Ready,
Playing, Paused or still Loading), when `inLoadWindow` becomes false and stays
false through the 1 s debounce, the item transitions to Unloaded and the
source is detached (`releases` increments); Failed items (not loaded, not
loading) are excluded — the unload effect's condition
`(isLoaded || isLoading)` never fires for them. -/
theorem c2_unload_after_debounce (s : VItem) (dt : Nat)
    (hdeps : s.unloadDeps = (s.inLoadView, s.isLoaded, s.isLoading))
    (hin : s.inLoadView = true)
    (hlg : s.isLoaded = true ∨ s.isLoading = true)
    (hsrc : s.srcRef = s.videoUrl)
    (hcap : ∀ q, s.loadDeadline = some q → q.2.1 = false)
    (hdt : 1000 ≤ dt) :
    phase (execV s [VEvent.setLoadView false, VEvent.elapse dt])
        = Phase.Unloaded ∧
      (execV s [VEvent.setLoadView false, VEvent.elapse dt]).srcAttached
        = false ∧
      (execV s [VEvent.setLoadView false, VEvent.elapse dt]).releases
        = s.releases + 1 := by
  have hle : s.now + 1000 ≤ s.now + dt := by omega
  have hstep1 : vstep s (VEvent.setLoadView false)
      = autoplayEffect
          { s with
            inLoadView := false,
            unloadDeps := (false, s.isLoaded, s.isLoading),
            unloadDeadline := some (s.now + 1000) } := by
    show reconcile { s with inLoadView := false } = _
    unfold reconcile
    have h1 : sourceEffect { s with inLoadView := false }
        = { s with inLoadView := false } :=
      sourceEffect_id _ hsrc
    have h2 : loadEffect { s with inLoadView := false }
        = { s with inLoadView := false } :=
      loadEffect_out _ rfl
    have h3 : unloadEffect { s with inLoadView := false }
        = { s with
            inLoadView := false,
            unloadDeps := (false, s.isLoaded, s.isLoading),
            unloadDeadline := some (s.now + 1000) } := by
      have := unloadEffect_schedule { s with inLoadView := false }
        (by simp only []; rw [hdeps, hin]; simp) rfl hlg
      simpa using this
    rw [h1, h2, h3]
  rw [autoplayEffect_eq] at hstep1
  have hexec : execV s [VEvent.setLoadView false, VEvent.elapse dt]
      = vstep (vstep s (VEvent.setLoadView false)) (VEvent.elapse dt) := rfl
  rw [hexec, hstep1]
  generalize (autoplayEffect _).isPlaying = b
  have hstep2 : vstep
      { s with
        inLoadView := false,
        unloadDeps := (false, s.isLoaded, s.isLoading),
        unloadDeadline := some (s.now + 1000), isPlaying := b }
      (VEvent.elapse dt)
      = fireLoadTimer (fireUnload
          { s with
            inLoadView := false,
            unloadDeps := (false, s.isLoaded, s.isLoading),
            unloadDeadline := some (s.now + 1000), isPlaying := b,
            now := s.now + dt }) := rfl
  rw [hstep2]
  have h5 : fireUnload
      { s with
        inLoadView := false,
        unloadDeps := (false, s.isLoaded, s.isLoading),
        unloadDeadline := some (s.now + 1000), isPlaying := b,
        now := s.now + dt }
      = reconcile
          { s with
            inLoadView := false,
            unloadDeps := (false, s.isLoaded, s.isLoading),
            now := s.now + dt, unloadDeadline := none, isPlaying := false,
            srcAttached := false, isLoaded := false, isFailed := false,
            loadingError := none, isLoading := false,
            releases := s.releases + 1 } := by
    unfold fireUnload
    dsimp only
    rw [if_pos hle]
    rfl
  rw [h5]
  have h6 : reconcile
      { s with
        inLoadView := false,
        unloadDeps := (false, s.isLoaded, s.isLoading),
        now := s.now + dt, unloadDeadline := none, isPlaying := false,
        srcAttached := false, isLoaded := false, isFailed := false,
        loadingError := none, isLoading := false,
        releases := s.releases + 1 }
      = { s with
          inLoadView := false,
          unloadDeps := (false, false, false),
          now := s.now + dt, unloadDeadline := none, isPlaying := false,
          srcAttached := false, isLoaded := false, isFailed := false,
          loadingError := none, isLoading := false,
          releases := s.releases + 1 } := by
    unfold reconcile
    have g1 : sourceEffect
        { s with
          inLoadView := false,
          unloadDeps := (false, s.isLoaded, s.isLoading),
          now := s.now + dt, unloadDeadline := none, isPlaying := false,
          srcAttached := false, isLoaded := false, isFailed := false,
          loadingError := none, isLoading := false,
          releases := s.releases + 1 }
        = { s with
            inLoadView := false,
            unloadDeps := (false, s.isLoaded, s.isLoading),
            now := s.now + dt, unloadDeadline := none, isPlaying := false,
            srcAttached := false, isLoaded := false, isFailed := false,
            loadingError := none, isLoading := false,
            releases := s.releases + 1 } :=
      sourceEffect_id _ hsrc
    have g2 : loadEffect
        { s with
          inLoadView := false,
          unloadDeps := (false, s.isLoaded, s.isLoading),
          now := s.now + dt, unloadDeadline := none, isPlaying := false,
          srcAttached := false, isLoaded := false, isFailed := false,
          loadingError := none, isLoading := false,
          releases := s.releases + 1 }
        = { s with
            inLoadView := false,
            unloadDeps := (false, s.isLoaded, s.isLoading),
            now := s.now + dt, unloadDeadline := none, isPlaying := false,
            srcAttached := false, isLoaded := false, isFailed := false,
            loadingError := none, isLoading := false,
            releases := s.releases + 1 } :=
      loadEffect_out _ rfl
    have g3 : unloadEffect
        { s with
          inLoadView := false,
          unloadDeps := (false, s.isLoaded, s.isLoading),
          now := s.now + dt, unloadDeadline := none, isPlaying := false,
          srcAttached := false, isLoaded := false, isFailed := false,
          loadingError := none, isLoading := false,
          releases := s.releases + 1 }
        = { s with
            inLoadView := false,
            unloadDeps := (false, false, false),
            now := s.now + dt, unloadDeadline := none, isPlaying := false,
            srcAttached := false, isLoaded := false, isFailed := false,
            loadingError := none, isLoading := false,
            releases := s.releases + 1 } := by
      have := unloadEffect_clear
        { s with
          inLoadView := false,
          unloadDeps := (false, s.isLoaded, s.isLoading),
          now := s.now + dt, unloadDeadline := none, isPlaying := false,
          srcAttached := false, isLoaded := false, isFailed := false,
          loadingError := none, isLoading := false,
          releases := s.releases + 1 }
        (by rcases hlg with h | h <;> simp [h]) (by simp)
      simpa using this
    have g4 : autoplayEffect
        { s with
          inLoadView := false,
          unloadDeps := (false, false, false),
          now := s.now + dt, unloadDeadline := none, isPlaying := false,
          srcAttached := false, isLoaded := false, isFailed := false,
          loadingError := none, isLoading := false,
          releases := s.releases + 1 }
        = { s with
            inLoadView := false,
            unloadDeps := (false, false, false),
            now := s.now + dt, unloadDeadline := none, isPlaying := false,
            srcAttached := false, isLoaded := false, isFailed := false,
            loadingError := none, isLoading := false,
            releases := s.releases + 1 } :=
      autoplayEffect_unloaded _ rfl
    rw [g1, g2, g3, g4]
  rw [h6]
  rcases hld : s.loadDeadline with _ | ⟨d0, cl, cd⟩
  · have h7 : fireLoadTimer
        { s with
          inLoadView := false,
          unloadDeps := (false, false, false),
          now := s.now + dt, unloadDeadline := none, isPlaying := false,
          srcAttached := false, isLoaded := false, isFailed := false,
          loadingError := none, isLoading := false,
          releases := s.releases + 1, loadDeadline := none }
        = { s with
            inLoadView := false,
            unloadDeps := (false, false, false),
            now := s.now + dt, unloadDeadline := none, isPlaying := false,
            srcAttached := false, isLoaded := false, isFailed := false,
            loadingError := none, isLoading := false,
            releases := s.releases + 1, loadDeadline := none } := rfl
    rw [h7]
    simp [phase]
  · have hcl : cl = false := hcap (d0, cl, cd) hld
    subst hcl
    have h7 : fireLoadTimer
        { s with
          inLoadView := false,
          unloadDeps := (false, false, false),
          now := s.now + dt, unloadDeadline := none, isPlaying := false,
          srcAttached := false, isLoaded := false, isFailed := false,
          loadingError := none, isLoading := false,
          releases := s.releases + 1,
          loadDeadline := some (d0, false, cd) }
        = if d0 ≤ s.now + dt then
            { s with
              inLoadView := false,
              unloadDeps := (false, false, false),
              now := s.now + dt, unloadDeadline := none, isPlaying := false,
              srcAttached := false, isLoaded := false, isFailed := false,
              loadingError := none, isLoading := false,
              releases := s.releases + 1, loadDeadline := none }
          else
            { s with
              inLoadView := false,
              unloadDeps := (false, false, false),
              now := s.now + dt, unloadDeadline := none, isPlaying := false,
              srcAttached := false, isLoaded := false, isFailed := false,
              loadingError := none, isLoading := false,
              releases := s.releases + 1,
              loadDeadline := some (d0, false, cd) } := by
      unfold fireLoadTimer
      dsimp only
      split_ifs <;> simp_all
    rw [h7]
    split_ifs <;> simp [phase]

/-- C2 counterexample: a Failed item is never unloaded — after leaving the
load window for 2 s it is still Failed, its source is still attached and no
resource release ever fired, contradicting the claim that the unload applies
to the Failed phase as well. -/
theorem c2_counterexample_failed_item_keeps_src :
    c2FailedRun.isFailed = true ∧ c2FailedRun.srcAttached = true ∧
      c2FailedRun.releases = 0 ∧ phase c2FailedRun = Phase.Failed := by
  decide

/-- Witness for C2 amended at the concrete Ready item `c2ReadyRun` and a 1 s
wait: discharges every hypothesis of the theorem. -/
theorem c2_unload_after_debounce_witness :
    (c2ReadyRun.unloadDeps
        = (c2ReadyRun.inLoadView, c2ReadyRun.isLoaded, c2ReadyRun.isLoading) ∧
      c2ReadyRun.inLoadView = true ∧
      c2ReadyRun.srcRef = c2ReadyRun.videoUrl) ∧
    phase (execV c2ReadyRun [VEvent.setLoadView false, VEvent.elapse 1000])
        = Phase.Unloaded ∧
      (execV c2ReadyRun
          [VEvent.setLoadView false, VEvent.elapse 1000]).srcAttached
        = false ∧
      (execV c2ReadyRun
          [VEvent.setLoadView false, VEvent.elapse 1000]).releases
        = c2ReadyRun.releases + 1 :=
  ⟨⟨by decide, by decide, by decide⟩,
    c2_unload_after_debounce c2ReadyRun 1000 (by decide) (by decide)
      (Or.inl (by decide)) (by decide)
      (by
        intro q h
        have hn : c2ReadyRun.loadDeadline = none := by decide
        rw [hn] at h
        exact Option.noConfusion h)
      (by decide)⟩

/-- The autoplay effect does nothing on a failed item. -/
theorem autoplayEffect_failed (s : VItem) (h : s.isFailed = true) :
    autoplayEffect s = s := by
  unfold autoplayEffect
  split_ifs with hc <;> simp_all

/-- The source-change effect when the stored source is non-empty and differs
from the current url: the reset branch. -/
theorem sourceEffect_reset (s : VItem) (h1 : s.srcRef ≠ "")
    (h2 : s.srcRef ≠ s.videoUrl) :
    sourceEffect s =
      { s with
        isLoaded := false, isFailed := false, isLoading := false,
        loadingError := none, isPlaying := false, srcAttached := false } := by
  unfold sourceEffect
  split_ifs <;> simp_all

/-- The load effect when it actually starts a load on a detached element. -/
theorem loadEffect_fire (s : VItem) (hin : s.inLoadView = true)
    (hl : s.isLoaded = false) (hf : s.isFailed = false)
    (hg : s.isLoading = false)
    (hsa : s.srcAttached = false ∨ s.srcRef ≠ s.videoUrl) :
    loadEffect s =
      { s with
        isLoading := true, isFailed := false, loadingError := none,
        srcAttached := true, srcRef := s.videoUrl,
        loadDeadline := some (s.now + 10000, s.isLoading, s.isLoaded) } := by
  unfold loadEffect loadVideo
  split_ifs <;> simp_all

/-- The unload timer does not exist: elapsing cannot release. -/
theorem fireUnload_none (s : VItem) (h : s.unloadDeadline = none) :
    fireUnload s = s := by
  simp only [fireUnload, h]

/-- The unload timer exists but is not yet due: elapsing does not release. -/
theorem fireUnload_notdue (s : VItem) (d : Nat)
    (h : s.unloadDeadline = some d) (hlt : s.now < d) :
    fireUnload s = s := by
  simp only [fireUnload, h]
  rw [if_neg (by omega)]

/-- With the captured `isLoading` false (as every scheduled load timeout has
it), the load-timeout fire is benign: at most the timer slot is cleared. -/
theorem fireLoadTimer_benign (s : VItem)
    (hcap : ∀ q, s.loadDeadline = some q → q.2.1 = false) :
    fireLoadTimer s = s ∨ fireLoadTimer s = { s with loadDeadline := none } := by
  rcases hld : s.loadDeadline with _ | ⟨d0, cl, cd⟩
  · left
    simp only [fireLoadTimer, hld]
  · have hcl : cl = false := hcap (d0, cl, cd) hld
    subst hcl
    simp only [fireLoadTimer, hld]
    split_ifs with h1 h2
    · exact absurd h2.1 (by decide)
    · right; rfl
    · left; rfl

/-- A full effect pass on an item whose stored source matches its url keeps
the source attached and matching, and neither releases nor rebinds anything
observable outside the item. -/
theorem reconcile_quiet (s : VItem) (hsrc : s.srcRef = s.videoUrl)
    (hsa : s.srcAttached = true) :
    (reconcile s).srcRef = (reconcile s).videoUrl ∧
    (reconcile s).srcAttached = true ∧
    (reconcile s).releases = s.releases ∧
    (reconcile s).now = s.now ∧
    (reconcile s).videoUrl = s.videoUrl ∧
    (reconcile s).inLoadView = s.inLoadView := by
  unfold reconcile
  rw [sourceEffect_id _ hsrc]
  have hl : (loadEffect s).srcRef = (loadEffect s).videoUrl ∧
      (loadEffect s).srcAttached = true ∧
      (loadEffect s).releases = s.releases ∧
      (loadEffect s).now = s.now ∧
      (loadEffect s).videoUrl = s.videoUrl ∧
      (loadEffect s).inLoadView = s.inLoadView := by
    unfold loadEffect loadVideo
    split_ifs <;> simp_all
  simp only [autoplayEffect_frame, unloadEffect_frame]
  exact hl

/-- Setting the load-window observer keeps the source bound and releases
nothing (the unload path only acts through its timer). -/
theorem vstep_loadView_quiet (s : VItem) (b : Bool)
    (hsrc : s.srcRef = s.videoUrl) (hsa : s.srcAttached = true) :
    (vstep s (VEvent.setLoadView b)).srcRef
        = (vstep s (VEvent.setLoadView b)).videoUrl ∧
    (vstep s (VEvent.setLoadView b)).srcAttached = true ∧
    (vstep s (VEvent.setLoadView b)).releases = s.releases ∧
    (vstep s (VEvent.setLoadView b)).now = s.now ∧
    (vstep s (VEvent.setLoadView b)).videoUrl = s.videoUrl ∧
    (vstep s (VEvent.setLoadView b)).inLoadView = b := by
  exact reconcile_quiet { s with inLoadView := b } hsrc hsa

/-- Elapsing time below the pending unload deadline (or with no pending unload
timer) keeps the source bound, releases nothing, and leaves the load-window
flag, the dependency snapshot and the clock bookkeeping intact. -/
theorem vstep_elapse_quiet (s : VItem) (dt : Nat)
    (hsrc : s.srcRef = s.videoUrl) (hsa : s.srcAttached = true)
    (hnofire : s.unloadDeadline = none ∨
      ∀ d, s.unloadDeadline = some d → s.now + dt < d)
    (hcap : ∀ q, s.loadDeadline = some q → q.2.1 = false) :
    (vstep s (VEvent.elapse dt)).srcRef
        = (vstep s (VEvent.elapse dt)).videoUrl ∧
    (vstep s (VEvent.elapse dt)).srcAttached = true ∧
    (vstep s (VEvent.elapse dt)).releases = s.releases ∧
    (vstep s (VEvent.elapse dt)).inLoadView = s.inLoadView ∧
    (vstep s (VEvent.elapse dt)).unloadDeps = s.unloadDeps ∧
    (vstep s (VEvent.elapse dt)).unloadDeadline = s.unloadDeadline ∧
    (vstep s (VEvent.elapse dt)).now = s.now + dt ∧
    (∀ q, (vstep s (VEvent.elapse dt)).loadDeadline = some q
      → q.2.1 = false) := by
  have hfu : fireUnload { s with now := s.now + dt }
      = { s with now := s.now + dt } := by
    rcases hnofire with h | h
    · exact fireUnload_none _ h
    · rcases hud : s.unloadDeadline with _ | d
      · exact fireUnload_none _ rfl
      · refine fireUnload_notdue _ d rfl ?_
        have h2 := h d hud
        simp only []
        omega
  have hstep : vstep s (VEvent.elapse dt)
      = fireLoadTimer { s with now := s.now + dt } := by
    show fireLoadTimer (fireUnload { s with now := s.now + dt }) = _
    rw [hfu]
  rw [hstep]
  rcases fireLoadTimer_benign { s with now := s.now + dt }
      (by intro q hq; exact hcap q hq) with hb | hb <;>
    rw [hb] <;>
    refine ⟨hsrc, hsa, rfl, rfl, rfl, rfl, rfl, ?_⟩
  · intro q hq
    exact hcap q hq
  · intro q hq
    simp at hq

/-- Re-entering the load window cancels any pending unload timer: the unload
effect's cleanup runs (its dependencies changed) and its condition no longer
holds, so no timer is re-armed. -/
theorem vstep_inview_clears (s : VItem)
    (hsrc : s.srcRef = s.videoUrl)
    (hdep : s.unloadDeps.1 = false) :
    (vstep s (VEvent.setLoadView true)).unloadDeadline = none := by
  show (reconcile { s with inLoadView := true }).unloadDeadline = none
  unfold reconcile
  have h1 : sourceEffect { s with inLoadView := true }
      = { s with inLoadView := true } :=
    sourceEffect_id _ hsrc
  rw [h1]
  have hfr := loadEffect_frame { s with inLoadView := true }
  have hin : (loadEffect { s with inLoadView := true }).inLoadView = true :=
    hfr.2.2.2.2.2.2.1
  have hdeps : (loadEffect { s with inLoadView := true }).unloadDeps.1
      = false := by
    rw [hfr.2.2.2.2.2.2.2.2.2]
    exact hdep
  have hclear := unloadEffect_clear (loadEffect { s with inLoadView := true })
    (by
      intro hcontra
      rw [hin] at hcontra
      rw [← hcontra] at hdeps
      simp at hdeps)
    (by
      intro hcontra
      rw [hin] at hcontra
      exact absurd hcontra.1 (by decide))
  rw [hclear]
  simp only [autoplayEffect_frame]

/-- The source-change effect never touches the load timeout slot. -/
theorem sourceEffect_loadDeadline (s : VItem) :
    (sourceEffect s).loadDeadline = s.loadDeadline := by
  unfold sourceEffect
  split_ifs <;> rfl

/-- Every load timeout the load effect leaves behind has a false captured
`isLoading` (the `loadVideo` guard ensures the captured render values are
`isLoading = false`, `isLoaded = false`). -/
theorem loadEffect_cap (s : VItem)
    (hcap : ∀ q, s.loadDeadline = some q → q.2.1 = false) :
    ∀ q, (loadEffect s).loadDeadline = some q → q.2.1 = false := by
  unfold loadEffect loadVideo
  split_ifs <;> intro q hq <;>
    first
      | exact hcap q hq
      | (simp_all; subst hq; rfl)

/-- A full effect pass preserves the false-captured-`isLoading` invariant of
the load timeout slot. -/
theorem reconcile_cap (s : VItem)
    (hcap : ∀ q, s.loadDeadline = some q → q.2.1 = false) :
    ∀ q, (reconcile s).loadDeadline = some q → q.2.1 = false := by
  intro q hq
  unfold reconcile at hq
  simp only [autoplayEffect_frame, unloadEffect_frame] at hq
  refine loadEffect_cap (sourceEffect s) ?_ q hq
  intro q2 hq2
  rw [sourceEffect_loadDeadline] at hq2
  exact hcap q2 hq2

/-- C5: for a loaded-or-loading item with a pending unload timer, an
`inLoadWindow` flip false→true→false in which the re-entry arrives before the
1 s debounce elapses never releases the resource: re-entry cancels the
pending timer (last-signal-wins) and the source stays attached throughout,
whatever time passes in between. -/
theorem c5_flip_cancels_unload (s : VItem) (t1 t2 d : Nat)
    (_hout : s.inLoadView = false)
    (hud : s.unloadDeadline = some d)
    (ht1 : s.now + t1 < d)
    (_hlg : s.isLoaded = true ∨ s.isLoading = true)
    (hsrc : s.srcRef = s.videoUrl)
    (hsa : s.srcAttached = true)
    (hdep : s.unloadDeps.1 = false)
    (hcap : ∀ q, s.loadDeadline = some q → q.2.1 = false) :
    (execV s [VEvent.elapse t1, VEvent.setLoadView true]).unloadDeadline
        = none ∧
    (execV s [VEvent.elapse t1, VEvent.setLoadView true, VEvent.elapse t2,
        VEvent.setLoadView false]).releases = s.releases ∧
    (execV s [VEvent.elapse t1, VEvent.setLoadView true, VEvent.elapse t2,
        VEvent.setLoadView false]).srcAttached = true := by
  have hnofire1 : s.unloadDeadline = none ∨
      ∀ d2, s.unloadDeadline = some d2 → s.now + t1 < d2 := by
    right
    intro d2 hd2
    rw [hud] at hd2
    injection hd2 with h
    omega
  have q1 := vstep_elapse_quiet s t1 hsrc hsa hnofire1 hcap
  obtain ⟨q1src, q1sa, q1rel, q1in, q1dep, q1ud, q1now, q1cap⟩ := q1
  have h2clear : (vstep (vstep s (VEvent.elapse t1))
      (VEvent.setLoadView true)).unloadDeadline = none :=
    vstep_inview_clears _ q1src (by rw [q1dep]; exact hdep)
  have q2 := vstep_loadView_quiet (vstep s (VEvent.elapse t1)) true q1src q1sa
  obtain ⟨q2src, q2sa, q2rel, q2now, q2url, q2in⟩ := q2
  have h2cap : ∀ q, (vstep (vstep s (VEvent.elapse t1))
      (VEvent.setLoadView true)).loadDeadline = some q → q.2.1 = false :=
    reconcile_cap _ q1cap
  have q3 := vstep_elapse_quiet _ t2 q2src q2sa (Or.inl h2clear) h2cap
  obtain ⟨q3src, q3sa, q3rel, q3in, q3dep, q3ud, q3now, q3cap⟩ := q3
  have q4 := vstep_loadView_quiet _ false q3src q3sa
  obtain ⟨q4src, q4sa, q4rel, q4now, q4url, q4in⟩ := q4
  refine ⟨h2clear, ?_, q4sa⟩
  show (vstep (vstep (vstep (vstep s (VEvent.elapse t1))
      (VEvent.setLoadView true)) (VEvent.elapse t2))
      (VEvent.setLoadView false)).releases = s.releases
  rw [q4rel, q3rel, q2rel, q1rel]

/-- C4: a Failed item that re-enters (or leaves) the load window never goes
back to Loading — the load effect's `!isFailed` guard blocks it and the item
stays in the Failed phase; only a change of the source url runs the reset
effect, clearing the Failed state, after which a load may begin (it begins at
once exactly when the item is in the load window). -/
theorem c4_failed_never_reloads (s : VItem) (b : Bool) (u : String)
    (hf : s.isFailed = true)
    (hsrc : s.srcRef = s.videoUrl)
    (hurl : s.videoUrl ≠ "")
    (hne : u ≠ s.videoUrl) :
    (phase (vstep s (VEvent.setLoadView b)) = Phase.Failed ∧
      (vstep s (VEvent.setLoadView b)).isLoading = s.isLoading) ∧
    ((vstep s (VEvent.changeSource u)).isFailed = false ∧
      (vstep s (VEvent.changeSource u)).isLoaded = false ∧
      (vstep s (VEvent.changeSource u)).isLoading = s.inLoadView) := by
  constructor
  · have h1 : sourceEffect { s with inLoadView := b }
        = { s with inLoadView := b } :=
      sourceEffect_id _ hsrc
    have h2 : loadEffect { s with inLoadView := b }
        = { s with inLoadView := b } :=
      loadEffect_failed _ hf
    have hx : (unloadEffect { s with inLoadView := b }).isFailed = true := by
      rw [(unloadEffect_frame _).2.2.2.1]
      exact hf
    have h4 : autoplayEffect (unloadEffect { s with inLoadView := b })
        = unloadEffect { s with inLoadView := b } :=
      autoplayEffect_failed _ hx
    have he : vstep s (VEvent.setLoadView b)
        = unloadEffect { s with inLoadView := b } := by
      show reconcile _ = _
      unfold reconcile
      rw [h1, h2, h4]
    rw [he]
    constructor
    · unfold phase
      rw [hx]
      simp
    · rw [(unloadEffect_frame _).2.2.1]
  · have h1 : sourceEffect { s with videoUrl := u }
        = { s with
            videoUrl := u, isLoaded := false, isFailed := false,
            isLoading := false, loadingError := none, isPlaying := false,
            srcAttached := false } := by
      have := sourceEffect_reset { s with videoUrl := u }
        (by show s.srcRef ≠ ""; rw [hsrc]; exact hurl)
        (by show s.srcRef ≠ u; rw [hsrc]; exact fun h => hne h.symm)
      simpa using this
    have he0 : vstep s (VEvent.changeSource u)
        = autoplayEffect (unloadEffect (loadEffect
            { s with
              videoUrl := u, isLoaded := false, isFailed := false,
              isLoading := false, loadingError := none, isPlaying := false,
              srcAttached := false })) := by
      show reconcile _ = _
      unfold reconcile
      rw [h1]
    cases hb : s.inLoadView
    · have h2 : loadEffect
          { s with
            videoUrl := u, isLoaded := false, isFailed := false,
            isLoading := false, loadingError := none, isPlaying := false,
            srcAttached := false }
          = { s with
              videoUrl := u, isLoaded := false, isFailed := false,
              isLoading := false, loadingError := none, isPlaying := false,
              srcAttached := false } :=
        loadEffect_out _ hb
      rw [he0, h2]
      have h4 : autoplayEffect (unloadEffect
          { s with
            videoUrl := u, isLoaded := false, isFailed := false,
            isLoading := false, loadingError := none, isPlaying := false,
            srcAttached := false })
          = unloadEffect
              { s with
                videoUrl := u, isLoaded := false, isFailed := false,
                isLoading := false, loadingError := none, isPlaying := false,
                srcAttached := false } :=
        autoplayEffect_unloaded _ (by rw [(unloadEffect_frame _).2.1])
      rw [h4]
      refine ⟨?_, ?_, ?_⟩
      · rw [(unloadEffect_frame _).2.2.2.1]
      · rw [(unloadEffect_frame _).2.1]
      · rw [(unloadEffect_frame _).2.2.1]
    · have h2 : loadEffect
          { s with
            videoUrl := u, isLoaded := false, isFailed := false,
            isLoading := false, loadingError := none, isPlaying := false,
            srcAttached := false }
          = { s with
              videoUrl := u, isLoaded := false, isFailed := false,
              loadingError := none, isPlaying := false,
              isLoading := true, srcAttached := true, srcRef := u,
              loadDeadline := some (s.now + 10000, false, false) } := by
        have := loadEffect_fire
          { s with
            videoUrl := u, isLoaded := false, isFailed := false,
            isLoading := false, loadingError := none, isPlaying := false,
            srcAttached := false }
          hb rfl rfl rfl (Or.inl rfl)
        simpa using this
      rw [he0, h2]
      have h4 : autoplayEffect (unloadEffect
          { s with
            videoUrl := u, isLoaded := false, isFailed := false,
            loadingError := none, isPlaying := false,
            isLoading := true, srcAttached := true, srcRef := u,
            loadDeadline := some (s.now + 10000, false, false) })
          = unloadEffect
              { s with
                videoUrl := u, isLoaded := false, isFailed := false,
                loadingError := none, isPlaying := false,
                isLoading := true, srcAttached := true, srcRef := u,
                loadDeadline := some (s.now + 10000, false, false) } :=
        autoplayEffect_unloaded _ (by rw [(unloadEffect_frame _).2.1])
      rw [h4]
      refine ⟨?_, ?_, ?_⟩
      · rw [(unloadEffect_frame _).2.2.2.1]
      · rw [(unloadEffect_frame _).2.1]
      · rw [(unloadEffect_frame _).2.2.1]

/-- Witness for C5 at the concrete state `c5StartRun` with re-entry after
500 ms (before the 1 s debounce) and a second exit 3 s later. -/
theorem c5_flip_cancels_unload_witness :
    (c5StartRun.inLoadView = false ∧
      c5StartRun.unloadDeadline = some 1000 ∧
      c5StartRun.now + 500 < 1000 ∧
      c5StartRun.isLoaded = true ∧
      c5StartRun.srcAttached = true) ∧
    (execV c5StartRun
        [VEvent.elapse 500, VEvent.setLoadView true]).unloadDeadline = none ∧
    (execV c5StartRun [VEvent.elapse 500, VEvent.setLoadView true,
        VEvent.elapse 3000, VEvent.setLoadView false]).releases
      = c5StartRun.releases ∧
    (execV c5StartRun [VEvent.elapse 500, VEvent.setLoadView true,
        VEvent.elapse 3000, VEvent.setLoadView false]).srcAttached = true :=
  ⟨⟨by decide, by decide, by decide, by decide, by decide⟩,
    c5_flip_cancels_unload c5StartRun 500 3000 1000 (by decide) (by decide)
      (by decide) (Or.inl (by decide)) (by decide) (by decide) (by decide)
      (by
        intro q hq
        have hn : c5StartRun.loadDeadline = none := by decide
        rw [hn] at hq
        exact Option.noConfusion hq)⟩

/-- Witness for C4 at the concrete Failed item `c4FailedRun`, re-entering the
load window and then changing the source to a different url. -/
theorem c4_failed_never_reloads_witness :
    (c4FailedRun.isFailed = true ∧ c4FailedRun.videoUrl ≠ "" ∧
      "b.mp4" ≠ c4FailedRun.videoUrl) ∧
    (phase (vstep c4FailedRun (VEvent.setLoadView true)) = Phase.Failed ∧
      (vstep c4FailedRun (VEvent.setLoadView true)).isLoading
        = c4FailedRun.isLoading) ∧
    ((vstep c4FailedRun (VEvent.changeSource "b.mp4")).isFailed = false ∧
      (vstep c4FailedRun (VEvent.changeSource "b.mp4")).isLoaded = false ∧
      (vstep c4FailedRun (VEvent.changeSource "b.mp4")).isLoading
        = c4FailedRun.inLoadView) :=
  ⟨⟨by decide, by decide, by decide⟩,
    (c4_failed_never_reloads c4FailedRun true "b.mp4" (by decide) (by decide)
      (by decide) (by decide)).1,
    (c4_failed_never_reloads c4FailedRun true "b.mp4" (by decide) (by decide)
      (by decide) (by decide)).2⟩

/-- C3, what the code actually does at the failing input: the 10 s load
timeout fires (the timer slot is consumed) but its callback's guard reads the
stale captured `isLoading = false` from the render that created `loadVideo`,
so the item stays Loading forever: `isFailed` stays false, no failure reason
is recorded, and the phase remains `Loading` — the spec's `Loading → Failed`
timeout transition never happens. -/
theorem c3_timeout_leaves_item_loading :
    c3TimeoutRun.isLoading = true ∧ c3TimeoutRun.isFailed = false ∧
      c3TimeoutRun.loadingError = none ∧ c3TimeoutRun.loadDeadline = none ∧
      phase c3TimeoutRun = Phase.Loading := by
  decide

/-- `sourceEffect` preserves playing-implies-loaded. -/
theorem playLoaded_sourceEffect (s : VItem)
    (h : s.isPlaying = true → s.isLoaded = true) :
    (sourceEffect s).isPlaying = true → (sourceEffect s).isLoaded = true := by
  unfold sourceEffect
  split_ifs with hc
  · simp
  · exact h

/-- The autoplay effect establishes the invariant on any state where playing
implies loaded: it pauses anything playing outside the play window and only
starts playback when loaded, not failed, and inside the window. -/
theorem vinv_autoplay (s : VItem)
    (h : s.isPlaying = true → s.isLoaded = true) :
    VInv (autoplayEffect s) := by
  unfold autoplayEffect VInv
  split_ifs with h1 h2 h3
  · rcases h1 with h1 | h1 <;> intro hp <;> simp_all
  · intro _
    simp_all
  · intro hp
    simp_all
  · intro hp
    constructor
    · exact h hp
    · intro hf
      by_contra hnp
      exact h3 ⟨by simp_all, hp⟩

/-- A full effect pass establishes the invariant whenever playing implies
loaded beforehand. -/
theorem vinv_reconcile (s : VItem)
    (h : s.isPlaying = true → s.isLoaded = true) :
    VInv (reconcile s) := by
  unfold reconcile
  apply vinv_autoplay
  intro hp
  rw [(unloadEffect_frame _).1] at hp
  rw [(unloadEffect_frame _).2.1]
  rw [(loadEffect_frame _).1] at hp
  rw [(loadEffect_frame _).2.1]
  exact playLoaded_sourceEffect s h hp

/-- The unload timer fire preserves the invariant. -/
theorem vinv_fireUnload (s : VItem) (h : VInv s) : VInv (fireUnload s) := by
  rcases hud : s.unloadDeadline with _ | d
  · simp only [fireUnload, hud]
    exact h
  · simp only [fireUnload, hud]
    split_ifs with h1 h2
    · exact h
    · exact vinv_reconcile _ (fun hp => Bool.noConfusion hp)
    · exact h

/-- The load timeout fire preserves the invariant. -/
theorem vinv_fireLoadTimer (s : VItem) (h : VInv s) :
    VInv (fireLoadTimer s) := by
  rcases hld : s.loadDeadline with _ | ⟨d0, cl, cd⟩
  · simp only [fireLoadTimer, hld]
    exact h
  · simp only [fireLoadTimer, hld]
    split_ifs with h1 h2
    · exact vinv_reconcile _ (fun hp => (h hp).1)
    · exact h
    · exact h

/-- Every event step preserves the invariant. -/
theorem vinv_vstep (s : VItem) (e : VEvent) (h : VInv s) :
    VInv (vstep s e) := by
  cases e with
  | setLoadView b => exact vinv_reconcile _ (fun hp => (h hp).1)
  | setPlayView b frac => exact vinv_reconcile _ (fun hp => (h hp).1)
  | metadataLoaded =>
      simp only [vstep]
      split_ifs
      · exact vinv_reconcile _ (fun _ => rfl)
      · exact h
  | mediaError msg =>
      simp only [vstep]
      split_ifs
      · exact vinv_reconcile _ (fun hp => (h hp).1)
      · exact h
  | click =>
      simp only [vstep]
      split_ifs with h1 h2
      · exact h
      · exact vinv_reconcile _ (fun _ => by simpa using h1)
      · exact vinv_reconcile _ (fun hp => Bool.noConfusion hp)
  | changeSource u => exact vinv_reconcile _ (fun hp => (h hp).1)
  | elapse dt =>
      show VInv (fireLoadTimer (fireUnload _))
      exact vinv_fireLoadTimer _ (vinv_fireUnload _ h)

/-- The invariant holds in every reachable state. -/
theorem vinv_reach (s : VItem) (h : VReach s) : VInv s := by
  induction h with
  | init ap url => exact fun hp => Bool.noConfusion hp
  | step s e _ ih => exact vinv_vstep s e ih

/-- C9: in every reachable runtime state, an item in the Playing phase is
loaded (Ready — the code's loaded-and-not-failed state) and inside the play
window; a click only plays loaded items, and leaving the play window pauses a
playing item via the autoplay effect. -/
theorem c9_playing_implies_loaded_inPlayView (s : VItem) (hr : VReach s)
    (hp : phase s = Phase.Playing) :
    s.isLoaded = true ∧ s.inPlayView = true := by
  have hinv := vinv_reach s hr
  unfold phase at hp
  by_cases h1 : s.isFailed = true
  · rw [if_pos h1] at hp
    exact absurd hp (by decide)
  rw [if_neg h1] at hp
  by_cases h2 : s.isLoading = true
  · rw [if_pos h2] at hp
    exact absurd hp (by decide)
  rw [if_neg h2] at hp
  by_cases h3 : s.isLoaded = false
  · rw [if_pos h3] at hp
    exact absurd hp (by decide)
  rw [if_neg h3] at hp
  by_cases h4 : s.isPlaying = true
  · exact ⟨by simpa using h3, (hinv h4).2 (by simpa using h1)⟩
  · rw [if_neg h4] at hp
    exact absurd hp (by decide)

/-- Witness for C9 at the reachable Playing state `c9PlayingRun`. -/
theorem c9_playing_implies_loaded_inPlayView_witness :
    phase c9PlayingRun = Phase.Playing ∧
      c9PlayingRun.isLoaded = true ∧ c9PlayingRun.inPlayView = true :=
  ⟨by decide,
    c9_playing_implies_loaded_inPlayView c9PlayingRun
      (VReach.step _ _ (VReach.step _ _ (VReach.step _ _
        (VReach.init true "a.mp4"))))
      (by decide)⟩

/-- C8: whenever the `autoScrollEnabled` setting transitions to false, any
in-progress auto-scroll halts at once and both pending timers — the scroll
tick interval and the mouse-idle timeout — are cleared; no auto-scroll timer
remains scheduled. -/
theorem c8_disable_halts_and_clears (s : AScroll) (h : s.enabled = true) :
    (astep s (AEvent.setEnabled false)).isAutoScrolling = false ∧
    (astep s (AEvent.setEnabled false)).intervalNext = none ∧
    (astep s (AEvent.setEnabled false)).idleDeadline = none := by
  simp only [astep]
  rw [if_neg (by simp [h]), if_neg (by decide)]
  exact ⟨rfl, rfl, rfl⟩

/-- Witness for C8 at the concrete running state `c8Running`. -/
theorem c8_disable_halts_and_clears_witness :
    c8Running.enabled = true ∧
    (astep c8Running (AEvent.setEnabled false)).isAutoScrolling = false ∧
    (astep c8Running (AEvent.setEnabled false)).intervalNext = none ∧
    (astep c8Running (AEvent.setEnabled false)).idleDeadline = none :=
  ⟨by decide, c8_disable_halts_and_clears c8Running (by decide)⟩

/-- C7: (a) while the driver runs, each due 50 ms tick strictly increases
`scrollTop`, by exactly `scrollSpeed`; (b) a tick that reaches
`scrollTop + clientHeight ≥ scrollHeight` stops the driver and clears its
interval; (c) a qualifying user interaction stops the driver at once and
re-arms the idle timer; (d) after such a stop, as long as less time passes
than remains until the idle deadline (and the setting is not toggled),
`scrollTop` never increases and the driver stays stopped. -/
theorem c7_tick_progress_and_interaction_stop :
    (∀ (s : AScroll) (t : Nat), s.isAutoScrolling = true →
        s.intervalNext = some t → t ≤ s.now → 0 < s.scrollSpeed →
        s.scrollTop < (astep s AEvent.tick).scrollTop ∧
        (astep s AEvent.tick).scrollTop = s.scrollTop + s.scrollSpeed) ∧
    (∀ (s : AScroll) (t : Nat), s.isAutoScrolling = true →
        s.intervalNext = some t → t ≤ s.now →
        s.scrollHeight ≤ s.scrollTop + s.scrollSpeed + s.clientHeight →
        (astep s AEvent.tick).isAutoScrolling = false ∧
        (astep s AEvent.tick).intervalNext = none) ∧
    (∀ s : AScroll, s.isAutoScrolling = true →
        (astep s AEvent.interact).isAutoScrolling = false ∧
        (astep s AEvent.interact).intervalNext = none ∧
        (s.enabled = true →
          (astep s AEvent.interact).idleDeadline
            = some (s.now + s.idleDelay))) ∧
    (∀ (s : AScroll) (d : Nat) (evs : List AEvent),
        s.isAutoScrolling = false → s.intervalNext = none →
        s.idleDeadline = some d →
        (∀ e ∈ evs, keepsConfig e = true) →
        s.now + (evs.map timeOfA).sum < d →
        (execA s evs).scrollTop = s.scrollTop ∧
        (execA s evs).isAutoScrolling = false) := by
  refine ⟨?_, ?_, ?_, ?_⟩
  · intro s t h1 h2 h3 h4
    simp only [astep, h2]
    rw [if_pos h3]
    unfold tickBody
    rw [if_pos (by simpa using h1)]
    split_ifs with hb
    · unfold stopAutoScroll
      split_ifs <;> exact ⟨by simp; linarith, by simp⟩
    · exact ⟨by simp; linarith, by simp⟩
  · intro s t h1 h2 h3 hb
    simp only [astep, h2]
    rw [if_pos h3]
    unfold tickBody
    rw [if_pos (by simpa using h1)]
    rw [if_pos (by simpa using hb)]
    unfold stopAutoScroll
    rw [if_neg (by simpa using h1)]
    exact ⟨rfl, rfl⟩
  · intro s h1
    simp only [astep]
    rw [if_pos h1]
    unfold stopAutoScroll
    rw [if_neg (by simpa using h1)]
    unfold startMouseIdleTimer
    split_ifs with he
    · refine ⟨rfl, rfl, ?_⟩
      intro ht
      rw [ht] at he
      cases he
    · exact ⟨rfl, rfl, fun _ => rfl⟩
  · intro s d evs
    induction evs generalizing s with
    | nil =>
        intro h1 h2 h3 h4 h5
        exact ⟨rfl, h1⟩
    | cons e es ih =>
        intro h1 h2 h3 h4 h5
        have hsum : s.now + timeOfA e + (es.map timeOfA).sum < d := by
          have : (List.map timeOfA (e :: es)).sum
              = timeOfA e + (es.map timeOfA).sum := by
            simp
          omega
        have hstep : (astep s e).isAutoScrolling = false ∧
            (astep s e).intervalNext = none ∧
            (astep s e).idleDeadline = some d ∧
            (astep s e).scrollTop = s.scrollTop ∧
            (astep s e).now = s.now + timeOfA e := by
          cases e with
          | elapse dt => simp [astep, timeOfA, h1, h2, h3]
          | tick => simp [astep, timeOfA, h1, h2, h3]
          | idleFire =>
              simp only [astep, h3, timeOfA]
              rw [if_neg (by omega)]
              simp [h1, h2, h3]
          | interact =>
              simp only [astep, timeOfA]
              rw [if_neg (by simp [h1])]
              simp [h1, h2, h3]
          | setEnabled b =>
              exact absurd (h4 _ (List.mem_cons_self _ _)) (by simp [keepsConfig])
        obtain ⟨k1, k2, k3, k4, k5⟩ := hstep
        have hrec := ih (astep s e) k1 k2 k3
          (fun e2 he2 => h4 e2 (List.mem_cons_of_mem _ he2))
          (by rw [k5]; omega)
        rw [show execA s (e :: es) = execA (astep s e) es from rfl]
        exact ⟨by rw [hrec.1, k4], hrec.2⟩

/-- Witness for C7 at concrete states: a due tick advances by `scrollSpeed`;
the bottom tick stops; an interaction stops and re-arms the idle timer; and a
2 s quiet stretch before an 11050 ms deadline never moves `scrollTop`. -/
theorem c7_tick_progress_and_interaction_stop_witness :
    (c7Run.isAutoScrolling = true ∧ c7Run.intervalNext = some 6050 ∧
      (6050 : Nat) ≤ c7Run.now ∧ 0 < c7Run.scrollSpeed) ∧
    (c7Run.scrollTop < (astep c7Run AEvent.tick).scrollTop ∧
      (astep c7Run AEvent.tick).scrollTop
        = c7Run.scrollTop + c7Run.scrollSpeed) ∧
    ((astep c7Bottom AEvent.tick).isAutoScrolling = false ∧
      (astep c7Bottom AEvent.tick).intervalNext = none) ∧
    ((astep c7Run AEvent.interact).isAutoScrolling = false ∧
      (astep c7Run AEvent.interact).intervalNext = none ∧
      (c7Run.enabled = true →
        (astep c7Run AEvent.interact).idleDeadline
          = some (c7Run.now + c7Run.idleDelay))) ∧
    ((execA c7Stopped c7Quiet).scrollTop = c7Stopped.scrollTop ∧
      (execA c7Stopped c7Quiet).isAutoScrolling = false) :=
  ⟨⟨by decide, by decide, by decide, by decide⟩,
    c7_tick_progress_and_interaction_stop.1 c7Run 6050 (by decide) (by decide)
      (by decide) (by decide),
    c7_tick_progress_and_interaction_stop.2.1 c7Bottom 6050 (by decide)
      (by decide) (by decide) (by norm_num [c7Bottom]),
    c7_tick_progress_and_interaction_stop.2.2.1 c7Run (by decide),
    c7_tick_progress_and_interaction_stop.2.2.2 c7Stopped 11050 c7Quiet
      (by decide) (by decide) (by decide) (by decide) (by decide)⟩

/-- C10: images are never unloaded — once `shouldLoad` is set, no later
visibility change unsets it, so the img keeps its src when the item leaves
the load window; it is first set on entering the load window; and only a
change of the source url resets the state to allow a fresh load. -/
theorem c10_images_never_unload (s : IItem) (b : Bool) (u : String)
    (hsrc : s.srcRef = s.imageUrl) :
    ((s.shouldLoad = true →
        (istep s (IEvent.setInView b)).shouldLoad = true) ∧
      (s.shouldLoad = true → s.isFailed = false →
        imgSrc (istep s (IEvent.setInView b)) = some s.imageUrl) ∧
      (s.hasRequestedLoad = false → s.inViewDep = false →
        (istep s (IEvent.setInView true)).shouldLoad = true)) ∧
    (s.srcRef ≠ "" → u ≠ s.imageUrl →
      (istep s (IEvent.changeSource u)).shouldLoad = false ∧
      (istep s (IEvent.changeSource u)).isLoaded = false ∧
      (istep s (IEvent.changeSource u)).hasRequestedLoad = false ∧
      (istep s (IEvent.changeSource u)).srcRef = u) := by
  obtain ⟨url, sr, sl, hr, l, f, iv, dep⟩ := s
  simp only at hsrc
  subst hsrc
  constructor
  · refine ⟨?_, ?_, ?_⟩ <;>
      simp only [istep, iEffects, iViewEffect, iSourceEffect, imgSrc] <;>
      intro h1 <;>
      (try intro h2) <;>
      subst h1 <;>
      (try subst h2) <;>
      split_ifs <;>
      simp_all
  · intro h1 h2
    simp only [istep, iEffects, iViewEffect, iSourceEffect]
    split_ifs <;> simp_all

/-- Witness for C10 at `c10Run`: leaving the load window keeps `shouldLoad`
and the img src; a source change to a different url resets. -/
theorem c10_images_never_unload_witness :
    (c10Run.shouldLoad = true ∧ c10Run.srcRef = c10Run.imageUrl) ∧
    ((istep c10Run (IEvent.setInView false)).shouldLoad = true ∧
      imgSrc (istep c10Run (IEvent.setInView false)) = some c10Run.imageUrl ∧
      (istep c10Run (IEvent.changeSource "j.jpg")).shouldLoad = false ∧
      (istep c10Run (IEvent.changeSource "j.jpg")).srcRef = "j.jpg") :=
  ⟨⟨by decide, by decide⟩,
    (c10_images_never_unload c10Run false "j.jpg" (by decide)).1.1 (by decide),
    (c10_images_never_unload c10Run false "j.jpg" (by decide)).1.2.1
      (by decide) (by decide),
    ((c10_images_never_unload c10Run false "j.jpg" (by decide)).2
      (by decide) (by decide)).1,
    ((c10_images_never_unload c10Run false "j.jpg" (by decide)).2
      (by decide) (by decide)).2.2.2⟩

end MediaWall
